import Mathlib

/-!
# Shallow embedding of the Cryptobot trading scripts

This file embeds the two near-duplicate Python scripts of the repository,
`src/testnet.py` and `src/troubleshoot.py`, and proves properties of the
embedded definitions.

Modelling conventions:
* Python floats on prices and timestamps are modelled as exact rationals `ℚ`
  (the pandas `NaN` arising from an absent floor price is modelled as `none`
  of `Option ℚ`, and the elementwise NaN-propagating column arithmetic as
  `Option`-propagating operations).
* A pandas `DataFrame` of NFT rows is modelled as a `List NFT` of its rows.
  A DataFrame built from the empty list has no columns, so a later column
  access on it raises `KeyError`; the one place where this matters
  (`Testnet.cycle`) models that exception explicitly.
* The network is modelled as data passed in: the marketplace answers page
  requests from a `List ApiResponse` script (the response to the first
  request, the second request, ...), and the chain is a `ChainEnv` record
  holding the freshly read balance, the transaction count, and the outcomes
  of gas estimation and of sign-and-broadcast (`Except` models a raised
  Python exception).
* Module-level Python constants keep their names
  (`PROFIT_THRESHOLD = 0.2`, `SPENDING_LIMIT_PERCENTAGE = 0.25`,
  `CACHE_EXPIRATION = 10 minutes`, modelled in seconds).
-/

/-- `PROFIT_THRESHOLD = 0.2` in both scripts. -/
def PROFIT_THRESHOLD : ℚ := 1/5

/-- `SPENDING_LIMIT_PERCENTAGE = 0.25` in both scripts. -/
def SPENDING_LIMIT_PERCENTAGE : ℚ := 1/4

/-- `CACHE_EXPIRATION = timedelta(minutes=10)`, in seconds. -/
def CACHE_EXPIRATION : ℚ := 600

/-- The configured wallet address (an opaque string supplied by the
environment; its concrete value is irrelevant to every claim). -/
def wallet_address : String := "0xWALLET"

/-- One entry of an asset's `sell_orders` array; `current_price` is in wei
(`none` models an absent `current_price` key). -/
structure SellOrder where
  current_price : Option ℕ
deriving DecidableEq

/-- One asset record of a marketplace page, with the fields the scripts read.
`traits` is the trait list already paired as (trait_type, value); the
testnet script turns it into a dict, the troubleshoot script never reads it. -/
structure Asset where
  name : String
  token_id : ℕ
  collection : String
  contract_address : String
  sell_orders : List SellOrder
  traits : List (String × String)
deriving DecidableEq

/-- One page response of the marketplace listing endpoint. `next` is the
pagination cursor (read only by the troubleshoot script). -/
structure ApiResponse where
  status : ℕ
  assets : List Asset
  next : Option String
deriving DecidableEq

/-- One row of the `nft_list` DataFrame built by `fetch_trending_nfts`.
`floor_price` is in ETH, `none` when absent (no sell order price).
The troubleshoot variant builds rows without a `traits` column; those rows
carry `[]` here. -/
structure NFT where
  name : String
  token_id : ℕ
  collection : String
  contract_address : String
  floor_price : Option ℚ
  traits : List (String × String)
deriving DecidableEq

/-- An NFT row after `calculate_profitability` added the two derived
columns (`none` models the NaN produced for an absent floor price). -/
structure ScoredNFT extends NFT where
  potential_profit : Option ℚ
  profit_margin : Option ℚ
deriving DecidableEq

/-- Elementwise subtraction of the two derived pandas columns: NaN (here
`none`) in either operand propagates. -/
def optSub : Option ℚ → Option ℚ → Option ℚ
  | some a, some b => some (a - b)
  | _, _ => none

/-- The floor price a fetched asset row gets:
`asset.get('sell_orders', [{}])[0].get('current_price', None)` followed by
`float(floor_price) / 1e18 if floor_price else None`.  An absent
`sell_orders` key is modelled as `[]` (the code's `[{}]` default then yields
no price); Python truthiness makes a price of `0` also map to `None`. -/
def floorPriceOf (a : Asset) : Option ℚ :=
  match (a.sell_orders.headD ⟨none⟩).current_price with
  | some w => if w = 0 then none else some ((w : ℚ) / 10^18)
  | none => none

/-- The per-row effect of `calculate_profitability` (identical in both
scripts): `potential_profit = floor_price * (1 + PROFIT_THRESHOLD)` and
`profit_margin = potential_profit - floor_price`, with NaN propagation. -/
def scoreOne (r : NFT) : ScoredNFT :=
  let pp := r.floor_price.map (fun fp => fp * (1 + PROFIT_THRESHOLD))
  { toNFT := r, potential_profit := pp, profit_margin := optSub pp r.floor_price }

/-- `calculate_profitability(df)`: copies the frame and adds the two derived
columns row by row. -/
def calculate_profitability (df : List NFT) : List ScoredNFT :=
  df.map scoreOne

/-- The orchestrator's selection mask
`profitable_nfts[profitable_nfts['profit_margin'] > 0]`; pandas evaluates
`NaN > 0` as `False`, so rows with an absent margin are dropped here. -/
def selectProfitable (l : List ScoredNFT) : List ScoredNFT :=
  l.filter fun s =>
    match s.profit_margin with
    | some m => decide (0 < m)
    | none => false

/-- `filter_by_traits(df, desired_traits)` (testnet script only): keeps a row
iff `all(item in traits.items() for item in desired_traits.items())`. -/
def filter_by_traits (df : List NFT) (desired : List (String × String)) :
    List NFT :=
  df.filter fun r => desired.all fun kv => decide (kv ∈ r.traits)

/-- The hard-coded trait predicate of the testnet orchestrator:
`desired_traits = {"Background": "Gold"}`. -/
def desired_traits : List (String × String) := [("Background", "Gold")]

/-- Lookup of a key in a trait mapping (a Python dict has each key at most
once; theorems that use this carry the corresponding `Nodup` hypothesis). -/
def traitLookup : List (String × String) → String → Option String
  | [], _ => none
  | (k, v) :: t, q => if q = k then some v else traitLookup t q

/-! ### Helper lemmas about the scorer and the trait filter -/

theorem scoreOne_floor (r : NFT) : (scoreOne r).floor_price = r.floor_price := rfl

theorem scoreOne_margin_none (r : NFT) (h : r.floor_price = none) :
    (scoreOne r).profit_margin = none := by
  simp [scoreOne, h, optSub]

theorem scoreOne_floor_some_of_margin (r : NFT) (m : ℚ)
    (h : (scoreOne r).profit_margin = some m) : r.floor_price.isSome := by
  cases hf : r.floor_price with
  | none => rw [scoreOne_margin_none r hf] at h; exact absurd h (by simp)
  | some p => simp

theorem traitLookup_mem (l : List (String × String)) (k : String) (v : String)
    (hnd : (l.map Prod.fst).Nodup) :
    (k, v) ∈ l ↔ traitLookup l k = some v := by
  induction l with
  | nil => simp [traitLookup]
  | cons hd t ih =>
    obtain ⟨hk, hv⟩ := hd
    simp only [List.map_cons, List.nodup_cons] at hnd
    by_cases hq : k = hk
    · subst hq
      constructor
      · intro hmem
        rcases List.mem_cons.mp hmem with h | h
        · cases h
          simp [traitLookup]
        · exact absurd (List.mem_map_of_mem Prod.fst h) (by simpa using hnd.1)
      · intro hl
        have hveq : hv = v := by simpa [traitLookup] using hl
        exact List.mem_cons.mpr (Or.inl (by rw [hveq]))
    · constructor
      · intro hmem
        rcases List.mem_cons.mp hmem with h | h
        · exact absurd (congrArg Prod.fst h) hq
        · simp only [traitLookup, if_neg hq]
          exact (ih hnd.2).1 h
      · intro hl
        simp only [traitLookup, if_neg hq] at hl
        exact List.mem_cons.mpr (Or.inr ((ih hnd.2).2 hl))

/-! ### Claims about the scorer and the filter -/

/-- C4 (counterexample): contrary to the claim, the scorer does not exclude a
listing with an absent floor price: on a one-row input without a floor price
the output still has that row, now carrying null (NaN) metrics. -/
theorem scorer_keeps_absent_floor :
    (calculate_profitability [⟨"x", 1, "c", "0xa", none, []⟩]).map
        (fun s => (s.floor_price, s.potential_profit, s.profit_margin))
      = [(none, none, none)] := rfl

/-- C4 (amended): the scorer passes listings with an absent floor price
through with null (`none`, pandas NaN) `potential_profit` and
`profit_margin`; such listings are excluded only downstream, by the
orchestrator's `profit_margin > 0` selection (NaN compares false), whose
output therefore contains no entry with an absent floor price. -/
theorem absent_floor_excluded_downstream (df : List NFT) (s : ScoredNFT)
    (h : s ∈ selectProfitable (calculate_profitability df)) :
    s.floor_price.isSome := by
  simp only [selectProfitable, List.mem_filter] at h
  obtain ⟨hmem, hm⟩ := h
  cases hmm : s.profit_margin with
  | none =>
      rw [hmm] at hm
      simp at hm
  | some m =>
      simp only [calculate_profitability, List.mem_map] at hmem
      obtain ⟨r, _, hr⟩ := hmem
      have hsome := scoreOne_floor_some_of_margin r m (by rw [hr, hmm])
      rw [← hr, scoreOne_floor]
      exact hsome

/-- C4 (witness for the amended theorem). -/
theorem absent_floor_excluded_downstream_witness :
    (scoreOne ⟨"y", 2, "c", "0xa", some 1, []⟩).floor_price.isSome :=
  absent_floor_excluded_downstream [⟨"y", 2, "c", "0xa", some 1, []⟩]
    (scoreOne ⟨"y", 2, "c", "0xa", some 1, []⟩)
    (List.mem_filter.mpr
      ⟨by simp [calculate_profitability],
       by norm_num [scoreOne, optSub, PROFIT_THRESHOLD]⟩)

/-- C5: for every listing with a present floor price `p`, the scorer yields
`potential_profit = p * (1 + PROFIT_THRESHOLD)` and
`profit_margin = potential_profit - floor_price`, hence exactly
`profit_margin = p * PROFIT_THRESHOLD` over exact arithmetic. -/
theorem scorer_margin_exact (df : List NFT) (s : ScoredNFT) (p : ℚ)
    (hs : s ∈ calculate_profitability df) (hp : s.floor_price = some p) :
    s.potential_profit = some (p * (1 + PROFIT_THRESHOLD)) ∧
    s.profit_margin = some (p * PROFIT_THRESHOLD) := by
  simp only [calculate_profitability, List.mem_map] at hs
  obtain ⟨r, _, hr⟩ := hs
  have hf : r.floor_price = some p := by rw [← scoreOne_floor, hr, hp]
  subst hr
  constructor
  · simp [scoreOne, hf]
  · simp only [scoreOne, hf, Option.map_some', optSub, Option.some_inj]
    ring

/-- C5 (witness): a listing with floor price `2` scores
`potential_profit = 12/5` and `profit_margin = 2/5`. -/
theorem scorer_margin_exact_witness :
    (scoreOne ⟨"z", 3, "c", "0xa", some 2, []⟩).potential_profit
        = some (2 * (1 + PROFIT_THRESHOLD)) ∧
    (scoreOne ⟨"z", 3, "c", "0xa", some 2, []⟩).profit_margin
        = some (2 * PROFIT_THRESHOLD) :=
  scorer_margin_exact [⟨"z", 3, "c", "0xa", some 2, []⟩]
    (scoreOne ⟨"z", 3, "c", "0xa", some 2, []⟩) 2 (by simp [calculate_profitability]) rfl

/-- C8: the trait filter keeps a row iff every desired (key, value) pair
occurs in the row's trait mapping — equivalently (the trait dict having
no duplicate keys), iff every desired key is present with exactly the
desired value; and with an empty trait predicate it is the identity. -/
theorem trait_filter_spec :
    (∀ df : List NFT, filter_by_traits df [] = df) ∧
    (∀ (df : List NFT) (desired : List (String × String)) (r : NFT),
      (r.traits.map Prod.fst).Nodup →
      (r ∈ filter_by_traits df desired ↔
        r ∈ df ∧ ∀ k v, (k, v) ∈ desired → traitLookup r.traits k = some v)) := by
  constructor
  · intro df
    simp [filter_by_traits]
  · intro df desired r hnd
    simp only [filter_by_traits, List.mem_filter, List.all_eq_true,
      decide_eq_true_eq]
    constructor
    · rintro ⟨hmem, hall⟩
      refine ⟨hmem, fun k v hkv => ?_⟩
      exact (traitLookup_mem r.traits k v hnd).1 (hall (k, v) hkv)
    · rintro ⟨hmem, hall⟩
      refine ⟨hmem, fun kv hkv => ?_⟩
      obtain ⟨k, v⟩ := kv
      exact (traitLookup_mem r.traits k v hnd).2 (hall k v hkv)

/-- C8 (witness): on a one-row frame whose row has the Gold background, the
filter is the identity for `[]` and the characterization holds for
`desired_traits`. -/
theorem trait_filter_spec_witness :
    (filter_by_traits [⟨"g", 4, "c", "0xa", some 1, [("Background", "Gold")]⟩] []
      = [⟨"g", 4, "c", "0xa", some 1, [("Background", "Gold")]⟩]) ∧
    (⟨"g", 4, "c", "0xa", some 1, [("Background", "Gold")]⟩ ∈
        filter_by_traits [⟨"g", 4, "c", "0xa", some 1, [("Background", "Gold")]⟩]
          desired_traits ↔
      (⟨"g", 4, "c", "0xa", some 1, [("Background", "Gold")]⟩ : NFT) ∈
          [(⟨"g", 4, "c", "0xa", some 1, [("Background", "Gold")]⟩ : NFT)] ∧
        ∀ k v, (k, v) ∈ desired_traits →
          traitLookup [("Background", "Gold")] k = some v) :=
  ⟨trait_filter_spec.1 _,
   trait_filter_spec.2 [⟨"g", 4, "c", "0xa", some 1, [("Background", "Gold")]⟩]
     desired_traits ⟨"g", 4, "c", "0xa", some 1, [("Background", "Gold")]⟩
     (by decide)⟩

/-! ### The marketplace fetch with its cache (both variants) -/

/-- The module-level `CACHE` dict: both keys (`trending_nfts` and
`last_fetched`) are always written together, so the cache is a single
optional (listing set, fetch timestamp) entry. -/
structure Cache where
  entry : Option (List NFT × ℚ)
deriving DecidableEq

namespace Testnet

/-- Row built for one asset by the testnet `fetch_trending_nfts` (keeps the
trait dict). -/
def parseAsset (a : Asset) : NFT :=
  { name := a.name, token_id := a.token_id, collection := a.collection,
    contract_address := a.contract_address, floor_price := floorPriceOf a,
    traits := a.traits }

/-- The testnet pagination loop (offset-based): keep requesting pages,
appending parsed assets, until an empty page or a non-200 status stops it.
The server's successive answers are scripted by the list; the `[]` case is
off-model (the server always answers) and returns the accumulator. -/
def fetch_pages : List ApiResponse → List NFT → List NFT
  | [], acc => acc
  | r :: rest, acc =>
    if r.status = 200 then
      if r.assets.isEmpty then acc
      else fetch_pages rest (acc ++ r.assets.map parseAsset)
    else acc

/-- `fetch_trending_nfts()` of the testnet script: serve the cached set when
the entry is younger than `CACHE_EXPIRATION`, otherwise run the pagination
loop and overwrite the cache with the (possibly partial or empty) result,
timestamped `now`. Returns (result, new cache, whether the network was hit). -/
def fetch_trending_nfts (c : Cache) (now : ℚ) (script : List ApiResponse) :
    List NFT × Cache × Bool :=
  match c.entry with
  | some (d, ts) =>
    if now - ts < CACHE_EXPIRATION then (d, c, false)
    else
      let d2 := fetch_pages script []
      (d2, ⟨some (d2, now)⟩, true)
  | none =>
      let d2 := fetch_pages script []
      (d2, ⟨some (d2, now)⟩, true)

end Testnet

namespace Troubleshoot

/-- Row built for one asset by the troubleshoot `fetch_trending_nfts`
(no `traits` column is built in this variant; modelled as `[]`). -/
def parseAsset (a : Asset) : NFT :=
  { name := a.name, token_id := a.token_id, collection := a.collection,
    contract_address := a.contract_address, floor_price := floorPriceOf a,
    traits := [] }

/-- The troubleshoot pagination loop (cursor-based): stop on a non-200
status, an empty page, or an absent `next` cursor. -/
def fetch_pages : List ApiResponse → List NFT → List NFT
  | [], acc => acc
  | r :: rest, acc =>
    if r.status = 200 then
      if r.assets.isEmpty then acc
      else
        let acc2 := acc ++ r.assets.map parseAsset
        match r.next with
        | some _ => fetch_pages rest acc2
        | none => acc2
    else acc

/-- `fetch_trending_nfts()` of the troubleshoot script; the caching layer is
identical to the testnet one, only the pagination loop differs. -/
def fetch_trending_nfts (c : Cache) (now : ℚ) (script : List ApiResponse) :
    List NFT × Cache × Bool :=
  match c.entry with
  | some (d, ts) =>
    if now - ts < CACHE_EXPIRATION then (d, c, false)
    else
      let d2 := fetch_pages script []
      (d2, ⟨some (d2, now)⟩, true)
  | none =>
      let d2 := fetch_pages script []
      (d2, ⟨some (d2, now)⟩, true)

end Troubleshoot

/-! ### Cache behaviour lemmas, shared by several theorems -/

theorem Testnet.testnet_fetch_hit (c : Cache) (now : ℚ) (s : List ApiResponse)
    (d : List NFT) (ts : ℚ) (he : c.entry = some (d, ts))
    (hlt : now - ts < CACHE_EXPIRATION) :
    Testnet.fetch_trending_nfts c now s = (d, c, false) := by
  simp [Testnet.fetch_trending_nfts, he, hlt]

theorem Testnet.testnet_fetch_miss (c : Cache) (now : ℚ) (s : List ApiResponse)
    (h : c.entry = none ∨ ∃ d ts, c.entry = some (d, ts) ∧
      CACHE_EXPIRATION ≤ now - ts) :
    Testnet.fetch_trending_nfts c now s =
      (Testnet.fetch_pages s [], ⟨some (Testnet.fetch_pages s [], now)⟩, true) := by
  rcases h with h | ⟨d, ts, he, hge⟩
  · simp [Testnet.fetch_trending_nfts, h]
  · simp [Testnet.fetch_trending_nfts, he, not_lt.mpr hge]

theorem Testnet.testnet_fetched_cache (c : Cache) (t0 : ℚ) (s : List ApiResponse)
    (h : (Testnet.fetch_trending_nfts c t0 s).2.2 = true) :
    (Testnet.fetch_trending_nfts c t0 s).2.1.entry =
      some ((Testnet.fetch_trending_nfts c t0 s).1, t0) := by
  rcases hc : c.entry with _ | ⟨d, ts⟩
  · rw [Testnet.testnet_fetch_miss c t0 s (Or.inl hc)]
  · by_cases hlt : t0 - ts < CACHE_EXPIRATION
    · rw [Testnet.testnet_fetch_hit c t0 s d ts hc hlt] at h
      simp at h
    · rw [Testnet.testnet_fetch_miss c t0 s (Or.inr ⟨d, ts, hc, not_lt.mp hlt⟩)]

theorem Troubleshoot.troubleshoot_fetch_hit (c : Cache) (now : ℚ) (s : List ApiResponse)
    (d : List NFT) (ts : ℚ) (he : c.entry = some (d, ts))
    (hlt : now - ts < CACHE_EXPIRATION) :
    Troubleshoot.fetch_trending_nfts c now s = (d, c, false) := by
  simp [Troubleshoot.fetch_trending_nfts, he, hlt]

theorem Troubleshoot.troubleshoot_fetch_miss (c : Cache) (now : ℚ) (s : List ApiResponse)
    (h : c.entry = none ∨ ∃ d ts, c.entry = some (d, ts) ∧
      CACHE_EXPIRATION ≤ now - ts) :
    Troubleshoot.fetch_trending_nfts c now s =
      (Troubleshoot.fetch_pages s [],
        ⟨some (Troubleshoot.fetch_pages s [], now)⟩, true) := by
  rcases h with h | ⟨d, ts, he, hge⟩
  · simp [Troubleshoot.fetch_trending_nfts, h]
  · simp [Troubleshoot.fetch_trending_nfts, he, not_lt.mpr hge]

theorem Troubleshoot.troubleshoot_fetched_cache (c : Cache) (t0 : ℚ) (s : List ApiResponse)
    (h : (Troubleshoot.fetch_trending_nfts c t0 s).2.2 = true) :
    (Troubleshoot.fetch_trending_nfts c t0 s).2.1.entry =
      some ((Troubleshoot.fetch_trending_nfts c t0 s).1, t0) := by
  rcases hc : c.entry with _ | ⟨d, ts⟩
  · rw [Troubleshoot.troubleshoot_fetch_miss c t0 s (Or.inl hc)]
  · by_cases hlt : t0 - ts < CACHE_EXPIRATION
    · rw [Troubleshoot.troubleshoot_fetch_hit c t0 s d ts hc hlt] at h
      simp at h
    · rw [Troubleshoot.troubleshoot_fetch_miss c t0 s (Or.inr ⟨d, ts, hc, not_lt.mp hlt⟩)]

/-- C6: (i) after a call that hit the network at `t0`, any call within the
TTL window (`t1 - t0 < CACHE_EXPIRATION`) returns that call's listing set
from the cache without hitting the network again; (ii) a call at or after
TTL expiry hits the network again, stores the fresh result with the current
timestamp, and returns it; (iii) a cached set is only ever served while
younger than the TTL.  Stated for both script variants. -/
theorem cache_ttl :
    (∀ (c : Cache) (t0 t1 : ℚ) (s0 s1 : List ApiResponse),
      (Testnet.fetch_trending_nfts c t0 s0).2.2 = true → t0 ≤ t1 →
      t1 - t0 < CACHE_EXPIRATION →
      Testnet.fetch_trending_nfts (Testnet.fetch_trending_nfts c t0 s0).2.1 t1 s1
        = ((Testnet.fetch_trending_nfts c t0 s0).1,
           (Testnet.fetch_trending_nfts c t0 s0).2.1, false)) ∧
    (∀ (c : Cache) (now : ℚ) (s : List ApiResponse) (d : List NFT) (ts : ℚ),
      c.entry = some (d, ts) → CACHE_EXPIRATION ≤ now - ts →
      Testnet.fetch_trending_nfts c now s
        = (Testnet.fetch_pages s [],
           ⟨some (Testnet.fetch_pages s [], now)⟩, true)) ∧
    (∀ (c : Cache) (now : ℚ) (s : List ApiResponse) (d : List NFT) (ts : ℚ),
      c.entry = some (d, ts) →
      (Testnet.fetch_trending_nfts c now s).2.2 = false →
      now - ts < CACHE_EXPIRATION ∧ (Testnet.fetch_trending_nfts c now s).1 = d) ∧
    (∀ (c : Cache) (t0 t1 : ℚ) (s0 s1 : List ApiResponse),
      (Troubleshoot.fetch_trending_nfts c t0 s0).2.2 = true → t0 ≤ t1 →
      t1 - t0 < CACHE_EXPIRATION →
      Troubleshoot.fetch_trending_nfts
          (Troubleshoot.fetch_trending_nfts c t0 s0).2.1 t1 s1
        = ((Troubleshoot.fetch_trending_nfts c t0 s0).1,
           (Troubleshoot.fetch_trending_nfts c t0 s0).2.1, false)) ∧
    (∀ (c : Cache) (now : ℚ) (s : List ApiResponse) (d : List NFT) (ts : ℚ),
      c.entry = some (d, ts) → CACHE_EXPIRATION ≤ now - ts →
      Troubleshoot.fetch_trending_nfts c now s
        = (Troubleshoot.fetch_pages s [],
           ⟨some (Troubleshoot.fetch_pages s [], now)⟩, true)) ∧
    (∀ (c : Cache) (now : ℚ) (s : List ApiResponse) (d : List NFT) (ts : ℚ),
      c.entry = some (d, ts) →
      (Troubleshoot.fetch_trending_nfts c now s).2.2 = false →
      now - ts < CACHE_EXPIRATION ∧
        (Troubleshoot.fetch_trending_nfts c now s).1 = d) := by
  refine ⟨?_, ?_, ?_, ?_, ?_, ?_⟩
  · intro c t0 t1 s0 s1 hf _ hlt
    exact Testnet.testnet_fetch_hit _ t1 s1 _ t0 (Testnet.testnet_fetched_cache c t0 s0 hf) hlt
  · intro c now s d ts he hge
    exact Testnet.testnet_fetch_miss c now s (Or.inr ⟨d, ts, he, hge⟩)
  · intro c now s d ts he hf
    by_cases hlt : now - ts < CACHE_EXPIRATION
    · exact ⟨hlt, by rw [Testnet.testnet_fetch_hit c now s d ts he hlt]⟩
    · rw [Testnet.testnet_fetch_miss c now s (Or.inr ⟨d, ts, he, not_lt.mp hlt⟩)] at hf
      simp at hf
  · intro c t0 t1 s0 s1 hf _ hlt
    exact Troubleshoot.troubleshoot_fetch_hit _ t1 s1 _ t0
      (Troubleshoot.troubleshoot_fetched_cache c t0 s0 hf) hlt
  · intro c now s d ts he hge
    exact Troubleshoot.troubleshoot_fetch_miss c now s (Or.inr ⟨d, ts, he, hge⟩)
  · intro c now s d ts he hf
    by_cases hlt : now - ts < CACHE_EXPIRATION
    · exact ⟨hlt, by rw [Troubleshoot.troubleshoot_fetch_hit c now s d ts he hlt]⟩
    · rw [Troubleshoot.troubleshoot_fetch_miss c now s
        (Or.inr ⟨d, ts, he, not_lt.mp hlt⟩)] at hf
      simp at hf

/-- C6 (witness): a first call on an empty cache at time 0 fetches; a second
call at time 1 is served from the cache without fetching; a call on an entry
stamped 0 at exactly time 600 (TTL expiry) fetches again. -/
theorem cache_ttl_witness :
    (Testnet.fetch_trending_nfts
        (Testnet.fetch_trending_nfts ⟨none⟩ 0 [⟨500, [], none⟩]).2.1 1 []
      = ((Testnet.fetch_trending_nfts ⟨none⟩ 0 [⟨500, [], none⟩]).1,
         (Testnet.fetch_trending_nfts ⟨none⟩ 0 [⟨500, [], none⟩]).2.1, false)) ∧
    (Troubleshoot.fetch_trending_nfts ⟨some ([], 0)⟩ 600 []
      = (Troubleshoot.fetch_pages [] [],
         ⟨some (Troubleshoot.fetch_pages [] [], 600)⟩, true)) :=
  ⟨cache_ttl.1 ⟨none⟩ 0 1 [⟨500, [], none⟩] [] rfl (by norm_num)
      (by norm_num [CACHE_EXPIRATION]),
   cache_ttl.2.2.2.2.1 ⟨some ([], 0)⟩ 600 [] [] 0 rfl
      (by norm_num [CACHE_EXPIRATION])⟩

/-- C10: a cache-missing fetch call always overwrites the cache with its
(possibly empty or partial) result stamped with the current time — also when
the pagination stopped on a non-2xx response; a first-page non-200 yields
`[]`; and any call within the following TTL window is served that stored
set without hitting the network.  Stated for both script variants. -/
theorem failed_fetch_cached :
    (∀ (now : ℚ) (s : List ApiResponse),
      (Testnet.fetch_trending_nfts ⟨none⟩ now s).2.1.entry
        = some ((Testnet.fetch_trending_nfts ⟨none⟩ now s).1, now)) ∧
    (∀ (now : ℚ) (st : ℕ) (a : List Asset) (nx : Option String)
        (rest : List ApiResponse), st ≠ 200 →
      (Testnet.fetch_trending_nfts ⟨none⟩ now (⟨st, a, nx⟩ :: rest)).1 = []) ∧
    (∀ (t0 t1 : ℚ) (s0 s1 : List ApiResponse), t0 ≤ t1 →
      t1 - t0 < CACHE_EXPIRATION →
      Testnet.fetch_trending_nfts
          (Testnet.fetch_trending_nfts ⟨none⟩ t0 s0).2.1 t1 s1
        = ((Testnet.fetch_trending_nfts ⟨none⟩ t0 s0).1,
           (Testnet.fetch_trending_nfts ⟨none⟩ t0 s0).2.1, false)) ∧
    (∀ (now : ℚ) (s : List ApiResponse),
      (Troubleshoot.fetch_trending_nfts ⟨none⟩ now s).2.1.entry
        = some ((Troubleshoot.fetch_trending_nfts ⟨none⟩ now s).1, now)) ∧
    (∀ (now : ℚ) (st : ℕ) (a : List Asset) (nx : Option String)
        (rest : List ApiResponse), st ≠ 200 →
      (Troubleshoot.fetch_trending_nfts ⟨none⟩ now (⟨st, a, nx⟩ :: rest)).1
        = []) ∧
    (∀ (t0 t1 : ℚ) (s0 s1 : List ApiResponse), t0 ≤ t1 →
      t1 - t0 < CACHE_EXPIRATION →
      Troubleshoot.fetch_trending_nfts
          (Troubleshoot.fetch_trending_nfts ⟨none⟩ t0 s0).2.1 t1 s1
        = ((Troubleshoot.fetch_trending_nfts ⟨none⟩ t0 s0).1,
           (Troubleshoot.fetch_trending_nfts ⟨none⟩ t0 s0).2.1, false)) := by
  refine ⟨?_, ?_, ?_, ?_, ?_, ?_⟩
  · intro now s
    rw [Testnet.testnet_fetch_miss ⟨none⟩ now s (Or.inl rfl)]
  · intro now st a nx rest h
    rw [Testnet.testnet_fetch_miss ⟨none⟩ now _ (Or.inl rfl)]
    simp [Testnet.fetch_pages, h]
  · intro t0 t1 s0 s1 _ hlt
    have hf : (Testnet.fetch_trending_nfts ⟨none⟩ t0 s0).2.2 = true := by
      rw [Testnet.testnet_fetch_miss ⟨none⟩ t0 s0 (Or.inl rfl)]
    exact Testnet.testnet_fetch_hit _ t1 s1 _ t0
      (Testnet.testnet_fetched_cache ⟨none⟩ t0 s0 hf) hlt
  · intro now s
    rw [Troubleshoot.troubleshoot_fetch_miss ⟨none⟩ now s (Or.inl rfl)]
  · intro now st a nx rest h
    rw [Troubleshoot.troubleshoot_fetch_miss ⟨none⟩ now _ (Or.inl rfl)]
    simp [Troubleshoot.fetch_pages, h]
  · intro t0 t1 s0 s1 _ hlt
    have hf : (Troubleshoot.fetch_trending_nfts ⟨none⟩ t0 s0).2.2 = true := by
      rw [Troubleshoot.troubleshoot_fetch_miss ⟨none⟩ t0 s0 (Or.inl rfl)]
    exact Troubleshoot.troubleshoot_fetch_hit _ t1 s1 _ t0
      (Troubleshoot.troubleshoot_fetched_cache ⟨none⟩ t0 s0 hf) hlt

/-- C10 (witness): after a first-page 500 at time 0, the empty result is
cached stamped 0, and a call at time 599 is served it without fetching. -/
theorem failed_fetch_cached_witness :
    ((Testnet.fetch_trending_nfts ⟨none⟩ 0 [⟨500, [], none⟩]).1 = []) ∧
    (Testnet.fetch_trending_nfts
        (Testnet.fetch_trending_nfts ⟨none⟩ 0 [⟨500, [], none⟩]).2.1 599 []
      = ((Testnet.fetch_trending_nfts ⟨none⟩ 0 [⟨500, [], none⟩]).1,
         (Testnet.fetch_trending_nfts ⟨none⟩ 0 [⟨500, [], none⟩]).2.1, false)) ∧
    ((Troubleshoot.fetch_trending_nfts ⟨none⟩ 0 [⟨503, [], none⟩]).1 = []) :=
  ⟨failed_fetch_cached.2.1 0 500 [] none [] (by norm_num),
   failed_fetch_cached.2.2.1 0 599 [⟨500, [], none⟩] [] (by norm_num)
     (by norm_num [CACHE_EXPIRATION]),
   failed_fetch_cached.2.2.2.2.1 0 503 [] none [] (by norm_num)⟩

/-! ### The buy transaction (both variants) -/

/-- The transaction dict built by `execute_buy` — exactly the five keys
`{'from', 'value', 'gas', 'gasPrice', 'nonce'}` of the source, in order
(`from` is a Lean keyword, hence `fromAddr`).  There is no recipient field
and no field mentioning the token id or the NFT contract. -/
structure Tx where
  fromAddr : String
  value : ℚ
  gas : ℕ
  gasPrice : ℕ
  nonce : ℕ
deriving DecidableEq

/-- The chain as read inside one `execute_buy` call: the balance in wei from
`w3.eth.get_balance` (read freshly at call time), the account's transaction
count, and the outcomes of `w3.eth.estimateGas` (troubleshoot variant only)
and of `sign_transaction` + `send_raw_transaction` (`Except.error` models a
raised exception, `Except.ok` the returned transaction hash). -/
structure ChainEnv where
  balanceWei : ℕ
  txCount : ℕ
  gasEstimate : Except String ℕ
  signSend : Except String String

/-- What one `execute_buy` call did: the string it returned, and the
transaction it signed and broadcast, if any. -/
structure BuyOutcome where
  ret : String
  tx : Option Tx
deriving DecidableEq

namespace Testnet

/-- `execute_buy(token_id, price)` of the testnet script.  `price` is in ETH
and `Web3.toWei` converts it (`price * 10^18`); the spend guard compares
that against `balance_in_wei * SPENDING_LIMIT_PERCENTAGE`.  This variant has
no `try`: a signing/broadcast exception propagates to the caller
(`Except.error`).  `token_id` is only logged and never enters the
transaction. -/
def execute_buy (env : ChainEnv) (token_id : ℕ) (price : ℚ) :
    Except String BuyOutcome :=
  let price_in_wei : ℚ := price * 10^18
  let spending_limit : ℚ := (env.balanceWei : ℚ) * SPENDING_LIMIT_PERCENTAGE
  if price_in_wei > spending_limit then Except.ok ⟨"Exceeds spending limit", none⟩
  else
    let tx : Tx := ⟨wallet_address, price_in_wei, 200000, 50 * 10^9, env.txCount⟩
    match env.signSend with
    | Except.ok h => Except.ok ⟨h, some tx⟩
    | Except.error e => Except.error e

end Testnet

namespace Troubleshoot

/-- `execute_buy(token_id, price)` of the troubleshoot script.  Same spend
guard; this variant additionally re-estimates gas (`transaction['gas'] =
gas_estimate`) and wraps the whole body in `try/except`, so any raised
exception is caught and its message string returned instead of a hash. -/
def execute_buy (env : ChainEnv) (token_id : ℕ) (price : ℚ) : BuyOutcome :=
  let price_in_wei : ℚ := price * 10^18
  let spending_limit : ℚ := (env.balanceWei : ℚ) * SPENDING_LIMIT_PERCENTAGE
  if price_in_wei > spending_limit then ⟨"Exceeds spending limit", none⟩
  else
    match env.gasEstimate with
    | Except.error e => ⟨e, none⟩
    | Except.ok g =>
      let tx : Tx := ⟨wallet_address, price_in_wei, g, 50 * 10^9, env.txCount⟩
      match env.signSend with
      | Except.ok h => ⟨h, some tx⟩
      | Except.error e => ⟨e, none⟩

end Troubleshoot

/-- C3: in both variants, a `buy` whose price converted to wei exceeds the
freshly read balance times `SPENDING_LIMIT_PERCENTAGE` returns the
spend-limit outcome, signs nothing and broadcasts nothing (`tx = none`),
and raises nothing. -/
theorem spend_guard (env : ChainEnv) (tid : ℕ) (price : ℚ)
    (h : price * 10^18 > (env.balanceWei : ℚ) * SPENDING_LIMIT_PERCENTAGE) :
    Troubleshoot.execute_buy env tid price = ⟨"Exceeds spending limit", none⟩ ∧
    Testnet.execute_buy env tid price
      = Except.ok ⟨"Exceeds spending limit", none⟩ := by
  constructor
  · simp [Troubleshoot.execute_buy, h]
  · simp [Testnet.execute_buy, h]

/-- C3 (witness): with a zero balance, a 1 ETH purchase is rejected by the
guard in both variants. -/
theorem spend_guard_witness :
    Troubleshoot.execute_buy ⟨0, 0, Except.ok 0, Except.ok ""⟩ 1 1
        = ⟨"Exceeds spending limit", none⟩ ∧
    Testnet.execute_buy ⟨0, 0, Except.ok 0, Except.ok ""⟩ 1 1
        = Except.ok ⟨"Exceeds spending limit", none⟩ :=
  spend_guard ⟨0, 0, Except.ok 0, Except.ok ""⟩ 1 1
    (by norm_num [SPENDING_LIMIT_PERCENTAGE])

/-- C9: the transaction never depends on the token id — two `execute_buy`
calls that differ only in `token_id` (same freshly read balance, price and
nonce) behave identically and submit identical `{from, value, gas,
gasPrice, nonce}` transactions; and when the guard passes and signing
succeeds, the submitted transaction is exactly those five fields, with no
recipient and no contract address. -/
theorem buy_tx_fields :
    (∀ (env : ChainEnv) (price : ℚ) (t1 t2 : ℕ),
      Troubleshoot.execute_buy env t1 price = Troubleshoot.execute_buy env t2 price ∧
      Testnet.execute_buy env t1 price = Testnet.execute_buy env t2 price) ∧
    (∀ (env : ChainEnv) (price : ℚ) (tid g : ℕ) (h : String),
      env.gasEstimate = Except.ok g → env.signSend = Except.ok h →
      ¬ price * 10^18 > (env.balanceWei : ℚ) * SPENDING_LIMIT_PERCENTAGE →
      Troubleshoot.execute_buy env tid price
        = ⟨h, some ⟨wallet_address, price * 10^18, g, 50 * 10^9, env.txCount⟩⟩) := by
  refine ⟨fun env price t1 t2 => ⟨rfl, rfl⟩, ?_⟩
  intro env price tid g h hg hs hle
  simp [Troubleshoot.execute_buy, hle, hg, hs]

/-- C9 (witness): with balance 10 ETH, price 1 ETH, estimated gas 21000 and
hash "0xh", the troubleshoot buy submits exactly the five-field
transaction. -/
theorem buy_tx_fields_witness :
    Troubleshoot.execute_buy
        ⟨10 * 10^18, 3, Except.ok 21000, Except.ok "0xh"⟩ 7 1
      = ⟨"0xh", some ⟨wallet_address, 1 * 10^18, 21000, 50 * 10^9, 3⟩⟩ :=
  buy_tx_fields.2 ⟨10 * 10^18, 3, Except.ok 21000, Except.ok "0xh"⟩ 1 7 21000
    "0xh" rfl rfl (by norm_num [SPENDING_LIMIT_PERCENTAGE])

/-! ### One cycle of `monitor_and_trade` (both variants) -/

/-- How a cycle of the perpetual loop ends: reaching the 60-second sleep and
continuing, or terminating the process (troubleshoot: the blanket
`except Exception` handler logs and calls `sys.exit(1)`; testnet: the
exception propagates uncaught). -/
inductive CycleEnd
  | cooldown
  | exitFailure (msg : String)
deriving DecidableEq

/-- Observable record of one cycle: the cache it leaves behind, the
`execute_buy` invocation `(token_id, price)` if one happened, the
`relist_nft` invocation `(token_id, resale_price, contract_address)` if one
happened, and how the cycle ended. -/
structure CycleOutcome where
  cache : Cache
  buyCall : Option (ℕ × ℚ)
  relistCall : Option (ℕ × ℚ × String)
  result : CycleEnd
deriving DecidableEq

/-- The scripted external world of one cycle: an exception escaping
`fetch_trending_nfts` itself (e.g. `requests.get` raising a transport
error — the only error there that is not turned into data), the page
responses, the chain, and an exception raised by `requests.post` inside
`relist_nft` (caught in the troubleshoot variant, uncaught in testnet). -/
structure CycleEnv where
  fetchRaises : Option String
  script : List ApiResponse
  chain : ChainEnv
  relistRaises : Option String

namespace Troubleshoot

/-- One iteration of the troubleshoot `monitor_and_trade` loop body, run
under its `try`: fetch (guarded by `is not None and not ... .empty`),
score, select `profit_margin > 0`, buy the first candidate, and relist at
its `potential_profit` whenever the buy's return string differs from
`"Exceeds spending limit"`.  `relist_nft` here catches every exception, so
the relist outcome never changes the flow; any exception escaping the
helpers (modelled: a fetch transport error) hits the orchestrator's
`except Exception` handler, which logs and calls `sys.exit(1)`. -/
def cycle (env : CycleEnv) (cache : Cache) (now : ℚ) : CycleOutcome :=
  match env.fetchRaises with
  | some e => ⟨cache, none, none, CycleEnd.exitFailure e⟩
  | none =>
    let fr := fetch_trending_nfts cache now env.script
    let df := fr.1
    let cache2 := fr.2.1
    if df.isEmpty then ⟨cache2, none, none, CycleEnd.cooldown⟩
    else
      match selectProfitable (calculate_profitability df) with
      | [] => ⟨cache2, none, none, CycleEnd.cooldown⟩
      | top :: _ =>
        -- a selected candidate always has a present floor price
        let price := top.floor_price.getD 0
        let res := execute_buy env.chain top.token_id price
        if res.ret = "Exceeds spending limit" then
          ⟨cache2, some (top.token_id, price), none, CycleEnd.cooldown⟩
        else
          ⟨cache2, some (top.token_id, price),
           some (top.token_id, top.potential_profit.getD 0, top.contract_address),
           CycleEnd.cooldown⟩

end Troubleshoot

namespace Testnet

/-- One iteration of the testnet `monitor_and_trade` loop body.  This
variant only catches `KeyboardInterrupt`: it first applies
`filter_by_traits` (whose `df['traits']` raises `KeyError` when the fetch
produced an empty frame, since a DataFrame built from `[]` has no columns),
its `execute_buy` propagates signing exceptions, and its `relist_nft`
propagates `requests.post` exceptions — each of those terminates the
process. -/
def cycle (env : CycleEnv) (cache : Cache) (now : ℚ) : CycleOutcome :=
  match env.fetchRaises with
  | some e => ⟨cache, none, none, CycleEnd.exitFailure e⟩
  | none =>
    let fr := fetch_trending_nfts cache now env.script
    let df := fr.1
    let cache2 := fr.2.1
    if df.isEmpty then
      ⟨cache2, none, none, CycleEnd.exitFailure "KeyError: traits"⟩
    else
      match selectProfitable (calculate_profitability
          (filter_by_traits df desired_traits)) with
      | [] => ⟨cache2, none, none, CycleEnd.cooldown⟩
      | top :: _ =>
        let price := top.floor_price.getD 0
        match execute_buy env.chain top.token_id price with
        | Except.error e => ⟨cache2, some (top.token_id, price), none,
            CycleEnd.exitFailure e⟩
        | Except.ok res =>
          if res.ret = "Exceeds spending limit" then
            ⟨cache2, some (top.token_id, price), none, CycleEnd.cooldown⟩
          else
            match env.relistRaises with
            | some e => ⟨cache2, some (top.token_id, price),
                some (top.token_id, top.potential_profit.getD 0,
                  top.contract_address),
                CycleEnd.exitFailure e⟩
            | none => ⟨cache2, some (top.token_id, price),
                some (top.token_id, top.potential_profit.getD 0,
                  top.contract_address),
                CycleEnd.cooldown⟩

end Testnet

/-! ### Claims about the trade loop -/

/-- C1 (code bug, evaluated at the failing input): one profitable, affordable
listing (floor 1 ETH, wallet 10 ETH) whose sign-and-broadcast raises
`"network error"`.  `execute_buy` catches the exception and returns its
message string with no transaction broadcast — yet the orchestrator's only
guard is `tx_hash != "Exceeds spending limit"`, so the cycle still invokes
relist with the listing's `potential_profit` (6/5) although nothing was
purchased, contradicting the claim (and the script's own "Purchased NFT"
log line). -/
theorem relist_after_failed_buy :
    (Troubleshoot.execute_buy
        ⟨10 * 10^18, 3, Except.ok 21000, Except.error "network error"⟩ 7 1).ret
      = "network error" ∧
    (Troubleshoot.execute_buy
        ⟨10 * 10^18, 3, Except.ok 21000, Except.error "network error"⟩ 7 1).tx
      = none ∧
    Troubleshoot.cycle
        ⟨none, [⟨200, [⟨"CoolNFT", 7, "Cool", "0xc", [⟨some (10^18)⟩], []⟩], none⟩],
         ⟨10 * 10^18, 3, Except.ok 21000, Except.error "network error"⟩, none⟩
        ⟨none⟩ 0
      = ⟨⟨some ([⟨"CoolNFT", 7, "Cool", "0xc", some 1, []⟩], 0)⟩,
         some (7, 1), some (7, 6/5, "0xc"), CycleEnd.cooldown⟩ := by
  refine ⟨?_, ?_, ?_⟩
  · norm_num [Troubleshoot.execute_buy, SPENDING_LIMIT_PERCENTAGE]
  · norm_num [Troubleshoot.execute_buy, SPENDING_LIMIT_PERCENTAGE]
  · have hf : Troubleshoot.fetch_trending_nfts ⟨none⟩ 0
          [⟨200, [⟨"CoolNFT", 7, "Cool", "0xc", [⟨some (10^18)⟩], []⟩], none⟩]
        = ([⟨"CoolNFT", 7, "Cool", "0xc", some 1, []⟩],
           ⟨some ([⟨"CoolNFT", 7, "Cool", "0xc", some 1, []⟩], 0)⟩, true) := by
      rw [Troubleshoot.troubleshoot_fetch_miss ⟨none⟩ 0 _ (Or.inl rfl)]
      norm_num [Troubleshoot.fetch_pages, Troubleshoot.parseAsset, floorPriceOf]
    unfold Troubleshoot.cycle
    rw [hf]
    norm_num [calculate_profitability, scoreOne, optSub, selectProfitable,
      Troubleshoot.execute_buy, PROFIT_THRESHOLD, SPENDING_LIMIT_PERCENTAGE,
      List.filter]
    intro h
    exact absurd h (by decide)

/-- C2 (counterexample): a runtime error during the loop does terminate the
process — a transport exception raised inside the fetch escapes to the
orchestrator's blanket handler, which logs it and calls `sys.exit(1)`. -/
theorem loop_terminates_on_fetch_exception :
    (Troubleshoot.cycle
        ⟨some "ConnectionError", [], ⟨0, 0, Except.ok 0, Except.ok ""⟩, none⟩
        ⟨none⟩ 0).result
      = CycleEnd.exitFailure "ConnectionError" := rfl

/-- C2 (amended): errors handled inside the helpers never terminate — in the
troubleshoot variant every cycle whose fetch raises no transport exception
reaches cooldown, whatever the page statuses, spend-limit outcome,
signing/broadcast failure or relist outcome; but a runtime exception that
reaches the orchestrator boundary is logged and terminates the process with
exit status 1 (and in the testnet variant, which catches only
`KeyboardInterrupt`, even signing/broadcast and relist exceptions
propagate and terminate the process). -/
theorem trade_loop_error_containment :
    (∀ (env : CycleEnv) (cache : Cache) (now : ℚ), env.fetchRaises = none →
      (Troubleshoot.cycle env cache now).result = CycleEnd.cooldown) ∧
    (∀ (env : CycleEnv) (cache : Cache) (now : ℚ) (e : String),
      env.fetchRaises = some e →
      (Troubleshoot.cycle env cache now).result = CycleEnd.exitFailure e) := by
  constructor
  · intro env cache now h
    unfold Troubleshoot.cycle
    rw [h]
    dsimp only
    split
    · rfl
    · split
      · rfl
      · split <;> rfl
  · intro env cache now e h
    unfold Troubleshoot.cycle
    rw [h]

/-- C2 (witness): a cycle whose fetch fails with a 500 but raises nothing
cools down; a cycle whose fetch raises "boom" exits with failure. -/
theorem trade_loop_error_containment_witness :
    (Troubleshoot.cycle
        ⟨none, [⟨500, [], none⟩], ⟨0, 0, Except.ok 0, Except.ok ""⟩, none⟩
        ⟨none⟩ 0).result = CycleEnd.cooldown ∧
    (Troubleshoot.cycle
        ⟨some "boom", [], ⟨0, 0, Except.ok 0, Except.ok ""⟩, none⟩
        ⟨none⟩ 0).result = CycleEnd.exitFailure "boom" :=
  ⟨trade_loop_error_containment.1
      ⟨none, [⟨500, [], none⟩], ⟨0, 0, Except.ok 0, Except.ok ""⟩, none⟩
      ⟨none⟩ 0 rfl,
   trade_loop_error_containment.2
      ⟨some "boom", [], ⟨0, 0, Except.ok 0, Except.ok ""⟩, none⟩
      ⟨none⟩ 0 "boom" rfl⟩

/-- C7 (evaluated): a non-200 stops paging and the accumulated prefix is
returned — a 500 on the first page yields `[]` (both variants), and a 500
after one good page yields that page's listings.  But in the testnet
variant the claimed "proceed to cooldown" fails at this input: the empty
frame has no columns, `filter_by_traits` raises `KeyError` on `df['traits']`
and, uncaught, terminates the process; the troubleshoot variant (whose
`.empty` guard skips buying) does cool down with no buy and no relist. -/
theorem fetch_failure_first_page :
    (Testnet.fetch_trending_nfts ⟨none⟩ 0 [⟨500, [], none⟩]).1 = [] ∧
    Testnet.cycle
        ⟨none, [⟨500, [], none⟩], ⟨0, 0, Except.ok 0, Except.ok ""⟩, none⟩ ⟨none⟩ 0
      = ⟨⟨some ([], 0)⟩, none, none, CycleEnd.exitFailure "KeyError: traits"⟩ ∧
    Troubleshoot.cycle
        ⟨none, [⟨500, [], none⟩], ⟨0, 0, Except.ok 0, Except.ok ""⟩, none⟩ ⟨none⟩ 0
      = ⟨⟨some ([], 0)⟩, none, none, CycleEnd.cooldown⟩ ∧
    (Troubleshoot.fetch_trending_nfts ⟨none⟩ 0
        [⟨200, [⟨"A", 1, "c", "0xa", [⟨some (2 * 10^18)⟩], []⟩], some "cur"⟩,
         ⟨500, [], none⟩]).1
      = [⟨"A", 1, "c", "0xa", some 2, []⟩] := by
  refine ⟨?_, ?_, ?_, ?_⟩
  · rw [Testnet.testnet_fetch_miss ⟨none⟩ 0 _ (Or.inl rfl)]
    rfl
  · have hf : Testnet.fetch_trending_nfts ⟨none⟩ 0 [⟨500, [], none⟩]
        = ([], ⟨some ([], 0)⟩, true) := by
      rw [Testnet.testnet_fetch_miss ⟨none⟩ 0 _ (Or.inl rfl)]
      rfl
    unfold Testnet.cycle
    rw [hf]
    rfl
  · have hf : Troubleshoot.fetch_trending_nfts ⟨none⟩ 0 [⟨500, [], none⟩]
        = ([], ⟨some ([], 0)⟩, true) := by
      rw [Troubleshoot.troubleshoot_fetch_miss ⟨none⟩ 0 _ (Or.inl rfl)]
      rfl
    unfold Troubleshoot.cycle
    rw [hf]
    rfl
  · rw [Troubleshoot.troubleshoot_fetch_miss ⟨none⟩ 0 _ (Or.inl rfl)]
    norm_num [Troubleshoot.fetch_pages, Troubleshoot.parseAsset, floorPriceOf]
